import Mathlib

/-!
Verification of the Krio-API-Integrations ETL connector.

The Python source is shallowly embedded: raw vendor records (Python dicts
decoded from JSON) become association lists of string keys and JSON-like
values; the per-record normalization code inside each fetch method becomes a
pure Lean function; pagination loops become structural recursion over the
finite list of responses the vendor serves, in order; code that can raise
(KeyError on a required subscript, IndexError on an empty list subscript)
returns Except.  json.dumps/json.loads are modelled structurally: a payload
is kept as a JSON object value, and loading a dumped payload is the identity
on that domain.
-/

/-- A JSON-like Python value, as produced by response.json(). -/
inductive Value where
  | null
  | bool (b : Bool)
  | num (n : Int)
  | str (s : String)
  | arr (elems : List Value)
  | obj (fields : List (String × Value))
deriving Repr

mutual

def decEqValue : (a b : Value) → Decidable (a = b)
  | .null, .null => isTrue rfl
  | .null, .bool _ => isFalse (fun h => Value.noConfusion h)
  | .null, .num _ => isFalse (fun h => Value.noConfusion h)
  | .null, .str _ => isFalse (fun h => Value.noConfusion h)
  | .null, .arr _ => isFalse (fun h => Value.noConfusion h)
  | .null, .obj _ => isFalse (fun h => Value.noConfusion h)
  | .bool _, .null => isFalse (fun h => Value.noConfusion h)
  | .bool a, .bool b =>
    if h : a = b then isTrue (by rw [h]) else isFalse (fun hh => h (by injection hh))
  | .bool _, .num _ => isFalse (fun h => Value.noConfusion h)
  | .bool _, .str _ => isFalse (fun h => Value.noConfusion h)
  | .bool _, .arr _ => isFalse (fun h => Value.noConfusion h)
  | .bool _, .obj _ => isFalse (fun h => Value.noConfusion h)
  | .num _, .null => isFalse (fun h => Value.noConfusion h)
  | .num _, .bool _ => isFalse (fun h => Value.noConfusion h)
  | .num a, .num b =>
    if h : a = b then isTrue (by rw [h]) else isFalse (fun hh => h (by injection hh))
  | .num _, .str _ => isFalse (fun h => Value.noConfusion h)
  | .num _, .arr _ => isFalse (fun h => Value.noConfusion h)
  | .num _, .obj _ => isFalse (fun h => Value.noConfusion h)
  | .str _, .null => isFalse (fun h => Value.noConfusion h)
  | .str _, .bool _ => isFalse (fun h => Value.noConfusion h)
  | .str _, .num _ => isFalse (fun h => Value.noConfusion h)
  | .str a, .str b =>
    if h : a = b then isTrue (by rw [h]) else isFalse (fun hh => h (by injection hh))
  | .str _, .arr _ => isFalse (fun h => Value.noConfusion h)
  | .str _, .obj _ => isFalse (fun h => Value.noConfusion h)
  | .arr _, .null => isFalse (fun h => Value.noConfusion h)
  | .arr _, .bool _ => isFalse (fun h => Value.noConfusion h)
  | .arr _, .num _ => isFalse (fun h => Value.noConfusion h)
  | .arr _, .str _ => isFalse (fun h => Value.noConfusion h)
  | .arr a, .arr b =>
    match decEqValueList a b with
    | isTrue h => isTrue (by rw [h])
    | isFalse h => isFalse (fun hh => h (by injection hh))
  | .arr _, .obj _ => isFalse (fun h => Value.noConfusion h)
  | .obj _, .null => isFalse (fun h => Value.noConfusion h)
  | .obj _, .bool _ => isFalse (fun h => Value.noConfusion h)
  | .obj _, .num _ => isFalse (fun h => Value.noConfusion h)
  | .obj _, .str _ => isFalse (fun h => Value.noConfusion h)
  | .obj _, .arr _ => isFalse (fun h => Value.noConfusion h)
  | .obj a, .obj b =>
    match decEqValueFields a b with
    | isTrue h => isTrue (by rw [h])
    | isFalse h => isFalse (fun hh => h (by injection hh))

def decEqValueList : (xs ys : List Value) → Decidable (xs = ys)
  | [], [] => isTrue rfl
  | [], _ :: _ => isFalse (fun h => List.noConfusion h)
  | _ :: _, [] => isFalse (fun h => List.noConfusion h)
  | x :: xs, y :: ys =>
    match decEqValue x y with
    | isFalse h => isFalse (fun hh => h (by injection hh))
    | isTrue h1 =>
      match decEqValueList xs ys with
      | isTrue h2 => isTrue (by rw [h1, h2])
      | isFalse h2 => isFalse (fun hh => h2 (by injection hh))

def decEqValueFields : (xs ys : List (String × Value)) → Decidable (xs = ys)
  | [], [] => isTrue rfl
  | [], _ :: _ => isFalse (fun h => List.noConfusion h)
  | _ :: _, [] => isFalse (fun h => List.noConfusion h)
  | (k1, v1) :: xs, (k2, v2) :: ys =>
    if hk : k1 = k2 then
      match decEqValue v1 v2 with
      | isFalse h => isFalse (fun hh => by
          injection hh with h1 h2
          exact h (congrArg Prod.snd h1))
      | isTrue h1 =>
        match decEqValueFields xs ys with
        | isTrue h2 => isTrue (by rw [hk, h1, h2])
        | isFalse h2 => isFalse (fun hh => h2 (by injection hh))
    else isFalse (fun hh => by
      injection hh with h1 h2
      exact hk (congrArg Prod.fst h1))

end

instance : DecidableEq Value := decEqValue

/-- A decoded JSON object / Python dict, as an association list.  Dicts from
decoded JSON have pairwise-distinct keys; lookups take the first match. -/
abbrev Obj := List (String × Value)

/-- Python d.get(k): the first binding of key k, if any. -/
def pyGet (d : Obj) (k : String) : Option Value :=
  (d.find? (fun p => p.1 = k)).map Prod.snd

/-- Python d.get(k, default). -/
def pyGetD (d : Obj) (k : String) (default : Value) : Value :=
  (pyGet d k).getD default

/-- View a value as a dict; non-dict values never reach the dict operations in
the theorems below (in Python they would raise AttributeError). -/
def asObj : Value → Obj
  | .obj fields => fields
  | _ => []

/-- View a value as a list; non-list values never reach the iterations in the
theorems below. -/
def asArr : Value → List Value
  | .arr elems => elems
  | _ => []

/-- Python truthiness of a decoded JSON value: None, False, 0, empty string,
empty list and empty dict are falsy. -/
def truthy : Value → Bool
  | .null => false
  | .bool b => b
  | .num n => n != 0
  | .str s => s ≠ ""
  | .arr elems => elems ≠ []
  | .obj fields => fields ≠ []

/-- Python str conversion as used in f-strings and str(): identity on
strings; numbers and booleans print; containers never reach it in the
theorems below. -/
def pyStr : Value → String
  | .str s => s
  | .num n => toString n
  | .bool b => if b then "True" else "False"
  | .null => "None"
  | .arr _ => ""
  | .obj _ => ""

/-- Python s.lower(), character by character (the records under proof are
ASCII). -/
def pyLower (s : String) : String := ⟨s.data.map Char.toLower⟩

/-- Python s.strip(): leading and trailing whitespace removed. -/
def pyStrip (s : String) : String :=
  ⟨((s.data.dropWhile (fun c => c.isWhitespace)).reverse.dropWhile
      (fun c => c.isWhitespace)).reverse⟩

/-- Splitting a character list on a non-empty separator sequence, leftmost
match first, as Python str.split(sep) does.  The fuel argument makes the
recursion structural; it is instantiated with the length of the list, which
always suffices because every step consumes at least one character. -/
def pySplitAux (sep : List Char) : Nat → List Char → List Char → List (List Char)
  | _, [], acc => [acc.reverse]
  | 0, l, acc => [acc.reverse ++ l]
  | fuel + 1, c :: cs, acc =>
    if sep.isPrefixOf (c :: cs) then
      acc.reverse :: pySplitAux sep fuel (cs.drop (sep.length - 1)) []
    else
      pySplitAux sep fuel cs (c :: acc)

/-- Python s.split(sep) for a non-empty separator. -/
def pySplit (s sep : String) : List String :=
  (pySplitAux sep.data s.data.length s.data []).map (fun cs => String.mk cs)

/-- The keys of a dict. -/
def objKeys (d : Obj) : List String := d.map Prod.fst

/-- Python data.get("results", []) with each element used as a dict. -/
def pageResults (data : Obj) : List Obj :=
  (asArr (pyGetD data "results" (Value.arr []))).map asObj

/-- The per-record loop of each fetch method: normalize the records in
order, appending each result, propagating the first raise. -/
def mapExceptList {a b : Type} (f : a → Except String b) : List a → Except String (List b)
  | [] => Except.ok []
  | x :: xs => do
    let y ← f x
    let ys ← mapExceptList f xs
    Except.ok (y :: ys)

namespace HubSpot

/-- Properties promoted out of the overflow payload for contacts
(src/hubspot/hubspot_api.py line 58). -/
def contactPromotedProps : List String :=
  ["firstname", "lastname", "email", "createdate", "lastmodifieddate", "lifecyclestage"]

/-- The overflow payload built for one raw contact (lines 57 and 58): all
top-level fields except id, properties, createdAt, updatedAt, then a
"properties" entry holding the non-promoted properties. -/
def contactPayload (contact : Obj) : Obj :=
  (contact.filter (fun p => decide (p.1 ∉ ["id", "properties", "createdAt", "updatedAt"])))
    ++ [("properties",
         Value.obj ((asObj (pyGetD contact "properties" (Value.obj []))).filter
           (fun p => decide (p.1 ∉ contactPromotedProps))))]

/-- The canonical contact dict appended in fetch_contacts (lines 59 to 68). -/
structure Contact where
  id : Value
  type : String
  name : String
  email : Value
  created_at : Value
  updated_at : Value
  source : String
  json_payload : Value
deriving Repr, DecidableEq

/-- Per-record normalization inside fetch_contacts (lines 55 to 68).
contact["id"] raises KeyError when absent; every other field is read with a
defaulting get. -/
def normalizeContact (contact : Obj) : Except String Contact :=
  match pyGet contact "id" with
  | none => Except.error "KeyError: id"
  | some cid =>
    let props := asObj (pyGetD contact "properties" (Value.obj []))
    Except.ok {
      id := cid
      type := "contact"
      name := pyStrip (pyStr (pyGetD props "firstname" (Value.str "")) ++ " " ++
               pyStr (pyGetD props "lastname" (Value.str "")))
      email := pyGetD props "email" (Value.str "")
      created_at := pyGetD props "createdate" (Value.str "")
      updated_at := pyGetD props "lastmodifieddate" (Value.str "")
      source := "hubspot"
      json_payload := Value.obj (contactPayload contact) }

/-- The per-record loop of fetch_contacts over one response: normalize every
record of data.get("results", []), in order. -/
def pageContacts (data : Obj) : Except String (List Contact) :=
  mapExceptList normalizeContact (pageResults data)

/-- The pagination loop of fetch_contacts (lines 46 to 74), its server
modelled as the finite list of JSON responses it serves, in request order.
Each iteration appends the normalized results of the current response and
stops when data.get("paging") is falsy or paging.get("next") is falsy;
otherwise it reads paging["next"]["after"] (KeyError when absent) and
requests the next page.  The second component counts the requests made;
requesting past the served responses is a transport error. -/
def fetch_contacts : List Obj → Except String (List Contact × Nat)
  | [] => Except.error "transport: no response"
  | data :: rest => do
    let page ← pageContacts data
    if truthy (pyGetD data "paging" Value.null) &&
        truthy (pyGetD (asObj (pyGetD data "paging" Value.null)) "next" Value.null) then
      match pyGet
          (asObj (pyGetD (asObj (pyGetD data "paging" Value.null)) "next" Value.null))
          "after" with
      | none => Except.error "KeyError: after"
      | some _after => do
        let (more, n) ← fetch_contacts rest
        Except.ok (page ++ more, n + 1)
    else
      Except.ok (page, 1)

/-- Holds when a sequence of responses drives the contact loop to completion:
every response before the last carries a paging.next object with an "after"
cursor, and the last response fails the continue condition. -/
def contactsChain : List Obj → Bool
  | [] => false
  | [data] =>
    let paging := pyGetD data "paging" Value.null
    !(truthy paging && truthy (pyGetD (asObj paging) "next" Value.null))
  | data :: rest =>
    let paging := pyGetD data "paging" Value.null
    truthy paging && truthy (pyGetD (asObj paging) "next" Value.null)
      && (pyGet (asObj (pyGetD (asObj paging) "next" Value.null)) "after").isSome
      && contactsChain rest

/-- Properties promoted out of the overflow payload for companies (line 88). -/
def companyPromotedProps : List String :=
  ["name", "domain", "createdate", "lastmodifieddate"]

/-- The overflow payload built for one raw company (lines 87 and 88). -/
def companyPayload (company : Obj) : Obj :=
  (company.filter (fun p => decide (p.1 ∉ ["id", "properties", "createdAt", "updatedAt"])))
    ++ [("properties",
         Value.obj ((asObj (pyGetD company "properties" (Value.obj []))).filter
           (fun p => decide (p.1 ∉ companyPromotedProps))))]

/-- The canonical company dict appended in fetch_companies (lines 89 to 98). -/
structure Company where
  id : Value
  type : String
  name : Value
  domain : Value
  created_at : Value
  updated_at : Value
  source : String
  json_payload : Value
deriving Repr, DecidableEq

/-- Per-record normalization inside fetch_companies (lines 85 to 98). -/
def normalizeCompany (company : Obj) : Except String Company :=
  match pyGet company "id" with
  | none => Except.error "KeyError: id"
  | some cid =>
    let props := asObj (pyGetD company "properties" (Value.obj []))
    Except.ok {
      id := cid
      type := "company"
      name := pyGetD props "name" (Value.str "")
      domain := pyGetD props "domain" (Value.str "")
      created_at := pyGetD props "createdate" (Value.str "")
      updated_at := pyGetD props "lastmodifieddate" (Value.str "")
      source := "hubspot"
      json_payload := Value.obj (companyPayload company) }

/-- Properties promoted out of the overflow payload for deals (line 136). -/
def dealPromotedProps : List String :=
  ["dealname", "amount", "dealstage", "createdate", "lastmodifieddate"]

/-- The overflow payload built for one raw deal (lines 135 and 136). -/
def dealPayload (deal : Obj) : Obj :=
  (deal.filter (fun p => decide (p.1 ∉ ["id", "properties", "createdAt", "updatedAt"])))
    ++ [("properties",
         Value.obj ((asObj (pyGetD deal "properties" (Value.obj []))).filter
           (fun p => decide (p.1 ∉ dealPromotedProps))))]

/-- The canonical deal dict appended in fetch_deals (lines 137 to 147). -/
structure Deal where
  id : Value
  type : String
  name : Value
  status : Value
  amount : Value
  created_at : Value
  updated_at : Value
  source : String
  json_payload : Value
deriving Repr, DecidableEq

/-- Per-record normalization inside fetch_deals (lines 133 to 147). -/
def normalizeDeal (deal : Obj) : Except String Deal :=
  match pyGet deal "id" with
  | none => Except.error "KeyError: id"
  | some did =>
    let props := asObj (pyGetD deal "properties" (Value.obj []))
    Except.ok {
      id := did
      type := "deal"
      name := pyGetD props "dealname" (Value.str "")
      status := pyGetD props "dealstage" (Value.str "")
      amount := pyGetD props "amount" (Value.str "")
      created_at := pyGetD props "createdate" (Value.str "")
      updated_at := pyGetD props "lastmodifieddate" (Value.str "")
      source := "hubspot"
      json_payload := Value.obj (dealPayload deal) }

/-- The relationship dict built per qualifying lead (lines 110 to 117). -/
structure Relationship where
  parent_type : String
  parent_id : Value
  child_type : String
  child_id : Value
  relationship_type : String
  json_payload : Value
deriving Repr, DecidableEq

/-- The lifecyclestage a contact dict exposes through its serialized payload:
json.loads(contact["json_payload"]).get("properties", dict()).get("lifecyclestage", "")
(line 119). -/
def contactPayloadLifecyclestage (contact : Contact) : Value :=
  pyGetD (asObj (pyGetD (asObj contact.json_payload) "properties" (Value.obj [])))
    "lifecyclestage" (Value.str "")

/-- The filter and row construction of fetch_leads (lines 106 to 122), applied
to the contacts fetch_contacts returned.  The filter lowercases the
lifecyclestage recovered from the serialized payload and compares with
"lead".  Note: in the source, the row construction reads the same field with
contact["json_payload"].get(...), which in Python would raise AttributeError
because json_payload is a serialized string at that point; structurally it
reads the same payload entry, which is what is modelled here. -/
def fetch_leads (contacts : List Contact) : List Relationship :=
  (contacts.filter
      (fun contact => pyLower (pyStr (contactPayloadLifecyclestage contact)) == "lead")).map
    (fun contact =>
      { parent_type := "contact"
        parent_id := contact.id
        child_type := "lead"
        child_id := contact.id
        relationship_type := "lead_status"
        json_payload := Value.obj [("lifecyclestage", contactPayloadLifecyclestage contact)] })

/-- The rate-limit bookkeeping of HubSpotClient (lines 23 to 30), with the
response headers as an association list of already-parsed integer values and
the current clock reading passed explicitly.  Returns the new
rate_limit_remaining estimate and the sleep duration taken, if any: the
missing-header default is 100, and the client sleeps max(reset - now, 1)
seconds whenever the estimate is at most 5. -/
def handle_rate_limit (headers : List (String × Int)) (now : Int) : Int × Option Int :=
  let rate_limit_remaining :=
    ((headers.find? (fun p => p.1 = "X-HubSpot-RateLimit-Remaining")).map Prod.snd).getD 100
  let rate_limit_reset :=
    ((headers.find? (fun p => p.1 = "X-HubSpot-RateLimit-Reset")).map Prod.snd).getD 0
  if rate_limit_remaining ≤ 5 then
    (rate_limit_remaining, some (max (rate_limit_reset - now) 1))
  else
    (rate_limit_remaining, none)

end HubSpot

namespace Zendesk

/-- The overflow payload built for one raw ticket
(src/zendesk/zendesk_api.py line 54). -/
def ticketPayload (ticket : Obj) : Obj :=
  ticket.filter (fun p => decide (p.1 ∉ ["id", "subject", "status", "created_at", "updated_at"]))

/-- The canonical ticket dict appended in fetch_tickets (lines 55 to 64). -/
structure Ticket where
  id : Value
  type : String
  name : Value
  status : Value
  created_at : Value
  updated_at : Value
  source : String
  json_payload : Value
deriving Repr, DecidableEq

/-- Per-record normalization inside fetch_tickets (lines 53 to 64).
ticket["id"] raises KeyError when absent; every other field is read with a
defaulting get. -/
def normalizeTicket (ticket : Obj) : Except String Ticket :=
  match pyGet ticket "id" with
  | none => Except.error "KeyError: id"
  | some tid =>
    Except.ok {
      id := tid
      type := "ticket"
      name := pyGetD ticket "subject" (Value.str "")
      status := pyGetD ticket "status" (Value.str "")
      created_at := pyGetD ticket "created_at" (Value.str "")
      updated_at := pyGetD ticket "updated_at" (Value.str "")
      source := "zendesk"
      json_payload := Value.obj (ticketPayload ticket) }

/-- The pagination loop of fetch_tickets (lines 47 to 70), its server
modelled as the finite list of JSON responses it serves, in request order.
Each iteration appends the normalized results of the current response and
stops when data.get("next_page") is falsy; otherwise it extracts the next
page number with next_page.split("page=")[1].split("&")[0] (IndexError when
the marker contains no "page=") and requests the next page.  The second
component counts the requests made. -/
def pageTickets (data : Obj) : Except String (List Ticket) :=
  mapExceptList normalizeTicket (pageResults data)

def fetch_tickets : List Obj → Except String (List Ticket × Nat)
  | [] => Except.error "transport: no response"
  | data :: rest => do
    let page ← pageTickets data
    if truthy (pyGetD data "next_page" Value.null) then
      match (pySplit (pyStr (pyGetD data "next_page" Value.null)) "page=").get? 1 with
      | none => Except.error "IndexError: list index out of range"
      | some seg =>
        let _pageParam := (pySplit seg "&").headD ""
        do
          let (more, n) ← fetch_tickets rest
          Except.ok (page ++ more, n + 1)
    else
      Except.ok (page, 1)

/-- Holds when a sequence of responses drives the ticket loop to completion:
every response before the last carries a truthy next_page marker containing
"page=", and the last response carries none. -/
def ticketsChain : List Obj → Bool
  | [] => false
  | [data] => !truthy (pyGetD data "next_page" Value.null)
  | data :: rest =>
    let next_page := pyGetD data "next_page" Value.null
    truthy next_page && ((pySplit (pyStr next_page) "page=").get? 1).isSome
      && ticketsChain rest

/-- The overflow payload built for one raw comment (line 77). -/
def commentPayload (comment : Obj) : Obj :=
  comment.filter
    (fun p => decide (p.1 ∉ ["id", "ticket_id", "author_id", "body", "created_at", "public"]))

/-- The interaction dict appended in fetch_comments (lines 78 to 88). -/
structure Comment where
  id : Value
  entity_type : String
  entity_id : Value
  author_id : Value
  body : Value
  created_at : Value
  is_public : Value
  source : String
  json_payload : Value
deriving Repr, DecidableEq

/-- Per-record normalization inside fetch_comments (lines 76 to 88), with the
ticket_id argument of the enclosing call.  comment["id"] and
comment["author_id"] raise KeyError when absent, in that order; body,
created_at and public are read with defaulting gets, public defaulting to
True. -/
def normalizeComment (ticket_id : Value) (comment : Obj) : Except String Comment :=
  match pyGet comment "id", pyGet comment "author_id" with
  | none, _ => Except.error "KeyError: id"
  | some _, none => Except.error "KeyError: author_id"
  | some cid, some aid =>
    Except.ok {
      id := cid
      entity_type := "ticket"
      entity_id := ticket_id
      author_id := aid
      body := pyGetD comment "body" (Value.str "")
      created_at := pyGetD comment "created_at" (Value.str "")
      is_public := pyGetD comment "public" (Value.bool true)
      source := "zendesk"
      json_payload := Value.obj (commentPayload comment) }

/-- The overflow payload built for one raw user (line 96). -/
def userPayload (user : Obj) : Obj :=
  user.filter (fun p => decide (p.1 ∉ ["id", "name", "email", "role", "created_at", "updated_at"]))

/-- The user dict built in fetch_user (lines 97 to 107). -/
structure User where
  id : Value
  type : String
  name : Value
  email : Value
  role : Value
  created_at : Value
  updated_at : Value
  source : String
  json_payload : Value
deriving Repr, DecidableEq

/-- The normalization of fetch_user (lines 95 to 107) on the extracted user
record.  Every field, the id included, is read with a defaulting get: a user
record missing its id yields id None and raises nothing. -/
def normalizeUser (user : Obj) : User :=
  { id := pyGetD user "id" Value.null
    type := "user"
    name := pyGetD user "name" (Value.str "")
    email := pyGetD user "email" (Value.str "")
    role := pyGetD user "role" (Value.str "")
    created_at := pyGetD user "created_at" (Value.str "")
    updated_at := pyGetD user "updated_at" (Value.str "")
    source := "zendesk"
    json_payload := Value.obj (userPayload user) }

/-- fetch_user (lines 92 to 109) on the JSON response of the per-user
endpoint: data.get("user", dict()) then normalization. -/
def fetch_user (data : Obj) : User :=
  normalizeUser (asObj (pyGetD data "user" (Value.obj [])))

/-- The rate-limit bookkeeping of ZendeskClient (lines 24 to 31), in the same
modelling as HubSpot.handle_rate_limit.  The missing-header default here is
0, so a response without rate-limit headers always takes the sleep branch. -/
def handle_rate_limit (headers : List (String × Int)) (now : Int) : Int × Option Int :=
  let rate_limit_remaining :=
    ((headers.find? (fun p => p.1 = "X-Rate-Limit-Remaining")).map Prod.snd).getD 0
  let rate_limit_reset :=
    ((headers.find? (fun p => p.1 = "X-Rate-Limit-Reset")).map Prod.snd).getD 0
  if rate_limit_remaining ≤ 5 then
    (rate_limit_remaining, some (max (rate_limit_reset - now) 1))
  else
    (rate_limit_remaining, none)

end Zendesk

namespace GooglePlay

/-- An HTTP response as _make_request sees it: a status code and the decoded
JSON body. -/
structure HttpResponse where
  status : Nat
  body : Value
deriving Repr, DecidableEq

/-- The request wrapper of GooglePlayClient._make_request
(src/google_play/google_play_api.py lines 48 to 64), with the transport
modelled by the response to the first GET and the response a retried GET
would receive.  If the first status is 401 the client refreshes its access
token once and issues exactly one retried GET; then raise_for_status raises
on any status of 400 or above.  Returns the number of GETs issued, the
number of token refreshes performed, and the outcome. -/
def make_request (r1 r2 : HttpResponse) : Nat × Nat × Except String Value :=
  if r1.status = 401 then
    (2, 1, if 400 ≤ r2.status then Except.error "HTTPError" else Except.ok r2.body)
  else
    (1, 0, if 400 ≤ r1.status then Except.error "HTTPError" else Except.ok r1.body)

/-- The user comment extracted from a raw review (line 74):
review.get("comments", [dict()])[0].get("userComment", dict()). -/
def reviewUserComment (review : Obj) : Obj :=
  asObj (pyGetD
    (asObj ((asArr (pyGetD review "comments" (Value.arr [Value.obj []]))).headD (Value.obj [])))
    "userComment" (Value.obj []))

/-- The overflow payload built for one raw review (lines 75 to 82): all
top-level fields except reviewId and comments, then a "userComment" entry
holding the non-promoted user comment fields. -/
def reviewPayload (review : Obj) : Obj :=
  (review.filter (fun p => decide (p.1 ∉ ["reviewId", "comments"])))
    ++ [("userComment",
         Value.obj ((reviewUserComment review).filter
           (fun p => decide (p.1 ∉ ["text", "starRating", "lastModified"]))))]

/-- The review dict appended in fetch_reviews (lines 83 to 92). -/
structure Review where
  id : Value
  type : String
  package_name : String
  rating : String
  comment : Value
  created_at : String
  source : String
  json_payload : Value
deriving Repr, DecidableEq

/-- Per-record normalization inside fetch_reviews (lines 73 to 92), with the
package name of the client and the formatted fetch time passed explicitly.
review.get("comments", [default])[0] raises IndexError exactly when the
record carries an empty comments list; the reviewId is read with a
defaulting get, so a missing id yields None and raises nothing. -/
def normalizeReview (package_name fetch_time : String) (review : Obj) : Except String Review :=
  match (asArr (pyGetD review "comments" (Value.arr [Value.obj []]))).head? with
  | none => Except.error "IndexError: list index out of range"
  | some _ =>
    let comment := reviewUserComment review
    Except.ok {
      id := pyGetD review "reviewId" Value.null
      type := "review"
      package_name := package_name
      rating := pyStr (pyGetD comment "starRating" (Value.str ""))
      comment := pyGetD comment "text" (Value.str "")
      created_at := fetch_time
      source := "google_play"
      json_payload := Value.obj (reviewPayload review) }

end GooglePlay

namespace Storage

/-- A row of the unified entities table described in the spec: every column
of entities(id, type, name, email, status, amount, domain, role, created_at,
updated_at, source, json_payload), with primary key (id, source). -/
structure EntityRow where
  id : String
  type : String
  name : String
  email : String
  status : String
  amount : String
  domain : String
  role : String
  created_at : String
  updated_at : String
  source : String
  json_payload : Value
deriving Repr, DecidableEq

/-- Modelled from the spec: Database.store_entities is called from
src/main.py but is absent from src (src/storage/database.py only carries the
per-vendor era of the store).  Per the spec, upsertEntities performs a
per-row INSERT OR REPLACE into the entities table keyed by the primary key
(id, source) — replace-on-conflict, no merge — following the INSERT OR
REPLACE pattern of Database.store_contacts.  A table is the list of its
rows; replacing deletes any row with the incoming key and appends the
incoming row. -/
def upsertEntityRow (table : List EntityRow) (row : EntityRow) : List EntityRow :=
  (table.filter (fun r => decide (¬(r.id = row.id ∧ r.source = row.source)))) ++ [row]

/-- Modelled from the spec: the batch form of the upsert, one INSERT OR
REPLACE per row in batch order within one transaction. -/
def store_entities (table : List EntityRow) (batch : List EntityRow) : List EntityRow :=
  batch.foldl upsertEntityRow table

/-- The rows of a table holding a given (id, source) key. -/
def rowsWithKey (table : List EntityRow) (id source : String) : List EntityRow :=
  table.filter (fun r => decide (r.id = id ∧ r.source = source))

end Storage

namespace Orchestrator

/-- The distinct-author accumulation of main (src/main.py lines 66 to 76):
per ticket, the set of author_id values of its fetched comments is added to
unique_users, and the user-fetch stage then issues one fetch_user call per
element of the final set.  The set is modelled as a deduplicated list; the
ids the stage fetches are exactly its elements. -/
def unique_users (ticket_comments : List (List Zendesk.Comment)) : List Value :=
  ((ticket_comments.map (fun comments => comments.map (fun c => c.author_id))).flatten).dedup

end Orchestrator

/-- A field of a raw HubSpot record, either a top-level key or a key of the
nested properties object — the flattened field set a raw contact carries. -/
inductive FieldRef where
  | top (k : String)
  | prop (k : String)
deriving Repr, DecidableEq

/-- The full field set of a raw HubSpot-shaped record: its top-level keys
other than the properties container itself, plus the keys of the nested
properties object. -/
def hsFieldRefs (record : Obj) : List FieldRef :=
  ((objKeys record).filter (fun k => decide (k ≠ "properties"))).map FieldRef.top
    ++ (objKeys (asObj (pyGetD record "properties" (Value.obj [])))).map FieldRef.prop

/-- The fields of a raw contact promoted into named columns by the contact
normalizer: the top-level id, and the properties feeding name, email,
created_at and updated_at.  The requested lifecyclestage property feeds no
column. -/
def contactPromotedRefs : List FieldRef :=
  [FieldRef.top "id", FieldRef.prop "firstname", FieldRef.prop "lastname",
   FieldRef.prop "email", FieldRef.prop "createdate", FieldRef.prop "lastmodifieddate"]

/-- The fields the contact normalizer reads from the raw record but stores
nowhere: neither a column nor the payload receives them. -/
def contactDroppedRefs : List FieldRef :=
  [FieldRef.top "createdAt", FieldRef.top "updatedAt", FieldRef.prop "lifecyclestage"]

/-- The fields of a raw ticket promoted into named columns by the ticket
normalizer (id plus the four promoted flat fields; the ticket_id of a
comment is likewise promoted, into entity_id). -/
def ticketPromotedKeys : List String :=
  ["id", "subject", "status", "created_at", "updated_at"]

/-- The fields of a raw comment promoted into columns of the interaction. -/
def commentPromotedKeys : List String :=
  ["id", "ticket_id", "author_id", "body", "created_at", "public"]

/-- The fields of a raw user promoted into columns. -/
def userPromotedKeys : List String :=
  ["id", "name", "email", "role", "created_at", "updated_at"]

/-- A normalized comment whose author_id is the given number, as the
user fan-in stage of main receives them. -/
def exComment (a : Int) : Zendesk.Comment :=
  { id := Value.num 0
    entity_type := "ticket"
    entity_id := Value.num 0
    author_id := Value.num a
    body := Value.str ""
    created_at := Value.str ""
    is_public := Value.bool true
    source := "zendesk"
    json_payload := Value.obj [] }

/-- An entities-table row with key ("42", "hubspot") and the given name and
email, for exercising the upsert. -/
def exEntityRow (name email : String) : Storage.EntityRow :=
  { id := "42", type := "contact", name := name, email := email, status := "",
    amount := "", domain := "", role := "", created_at := "", updated_at := "",
    source := "hubspot", json_payload := Value.null }

/-- A CRM list response carrying one record and a paging.next cursor. -/
def contactPageNext (c : Obj) (cursor : String) : Obj :=
  [("results", Value.arr [Value.obj c]),
   ("paging", Value.obj [("next", Value.obj [("after", Value.str cursor)])])]

/-- A terminal CRM list response carrying one record and no paging object. -/
def contactPageLast (c : Obj) : Obj :=
  [("results", Value.arr [Value.obj c])]

/-- A raw contact with an id and a lifecyclestage property. -/
def mkRawContact (i stage : String) : Obj :=
  [("id", Value.str i), ("properties", Value.obj [("lifecyclestage", Value.str stage)])]

/-- The lead-derivation input of the spec: contacts whose lifecyclestage
values are Lead, customer, LEAD and the empty string. -/
def leadsInput : List Obj :=
  [mkRawContact "1" "Lead", mkRawContact "2" "customer",
   mkRawContact "3" "LEAD", mkRawContact "4" ""]

/-- What the contact normalizer produces on mkRawContact: the lifecyclestage
property is filtered out of the payload, leaving an empty properties
overflow. -/
def leadNormContact (i : String) : HubSpot.Contact :=
  { id := Value.str i, type := "contact", name := "", email := Value.str "",
    created_at := Value.str "", updated_at := Value.str "", source := "hubspot",
    json_payload := Value.obj [("properties", Value.obj [])] }

/-- A raw contact carrying a top-level createdAt field and a lifecyclestage
property, the fields the contact normalizer stores nowhere. -/
def overflowContact : Obj :=
  [("id", Value.str "7"), ("createdAt", Value.str "2024-01-01T00:00:00Z"),
   ("archived", Value.bool false),
   ("properties", Value.obj
     [("lifecyclestage", Value.str "Lead"), ("email", Value.str "a@b.c"),
      ("custom_score", Value.num 9)])]

/-- A helpdesk search response carrying one record and a next_page URL. -/
def ticketPageNext (t : Obj) (url : String) : Obj :=
  [("results", Value.arr [Value.obj t]), ("next_page", Value.str url)]

/-- A terminal helpdesk search response carrying one record and no next_page
marker. -/
def ticketPageLast (t : Obj) : Obj :=
  [("results", Value.arr [Value.obj t])]

/-- A raw ticket with an id and a subject. -/
def mkRawTicket (i : Int) (subj : String) : Obj :=
  [("id", Value.num i), ("subject", Value.str subj)]

/-- Claim C10 (confirmed): on an HTTP response lacking rate-limit headers the
Zendesk client sets its remaining-budget estimate to 0 and always sleeps for
at least 1 second, while the HubSpot client sets the estimate to 100 and
does not sleep. -/
theorem c10_backoff_asymmetry (headers : List (String × Int)) (now : Int)
    (hzr : headers.find? (fun p => p.1 = "X-Rate-Limit-Remaining") = none)
    (hzs : headers.find? (fun p => p.1 = "X-Rate-Limit-Reset") = none)
    (hhr : headers.find? (fun p => p.1 = "X-HubSpot-RateLimit-Remaining") = none)
    (hhs : headers.find? (fun p => p.1 = "X-HubSpot-RateLimit-Reset") = none) :
    (Zendesk.handle_rate_limit headers now).1 = 0 ∧
    (∃ s, (Zendesk.handle_rate_limit headers now).2 = some s ∧ 1 ≤ s) ∧
    (HubSpot.handle_rate_limit headers now).1 = 100 ∧
    (HubSpot.handle_rate_limit headers now).2 = none := by
  unfold Zendesk.handle_rate_limit HubSpot.handle_rate_limit
  rw [hzr, hzs, hhr, hhs]
  refine ⟨by norm_num, ⟨max (0 - now) 1, by norm_num, le_max_right _ _⟩, by norm_num, by norm_num⟩

/-- Witness for C10 at the empty header list and clock reading 50. -/
theorem c10_backoff_asymmetry_witness :
    (Zendesk.handle_rate_limit [] 50).1 = 0 ∧
    (∃ s, (Zendesk.handle_rate_limit [] 50).2 = some s ∧ 1 ≤ s) ∧
    (HubSpot.handle_rate_limit [] 50).1 = 100 ∧
    (HubSpot.handle_rate_limit [] 50).2 = none :=
  c10_backoff_asymmetry [] 50 rfl rfl rfl rfl

/-- Claim C8 (confirmed): a 401 on the OAuth2-backed review client triggers
exactly one token refresh and exactly one retried request, a still-failing
retry surfaces as a fatal error, and no first status other than 401 triggers
any refresh or retry. -/
theorem c8_retry_once_on_401 (r1 r2 : GooglePlay.HttpResponse) :
    (r1.status = 401 →
      (GooglePlay.make_request r1 r2).1 = 2 ∧
      (GooglePlay.make_request r1 r2).2.1 = 1 ∧
      (400 ≤ r2.status →
        (GooglePlay.make_request r1 r2).2.2 = Except.error "HTTPError") ∧
      (r2.status < 400 →
        (GooglePlay.make_request r1 r2).2.2 = Except.ok r2.body)) ∧
    (r1.status ≠ 401 →
      (GooglePlay.make_request r1 r2).1 = 1 ∧
      (GooglePlay.make_request r1 r2).2.1 = 0 ∧
      (400 ≤ r1.status →
        (GooglePlay.make_request r1 r2).2.2 = Except.error "HTTPError") ∧
      (r1.status < 400 →
        (GooglePlay.make_request r1 r2).2.2 = Except.ok r1.body)) := by
  unfold GooglePlay.make_request
  constructor
  · intro h1
    rw [if_pos h1]
    refine ⟨rfl, rfl, fun h2 => by rw [if_pos h2], fun h2 => by rw [if_neg (by omega)]⟩
  · intro h1
    rw [if_neg h1]
    refine ⟨rfl, rfl, fun h2 => by rw [if_pos h2], fun h2 => by rw [if_neg (by omega)]⟩

/-- Witness for C8: a 401 answered by a still-failing 403 retry yields two
requests, one refresh and a fatal error; a plain 200 yields one request and
no refresh. -/
theorem c8_retry_once_on_401_witness :
    (GooglePlay.make_request ⟨401, Value.null⟩ ⟨403, Value.null⟩).1 = 2 ∧
    (GooglePlay.make_request ⟨401, Value.null⟩ ⟨403, Value.null⟩).2.1 = 1 ∧
    (GooglePlay.make_request ⟨401, Value.null⟩ ⟨403, Value.null⟩).2.2 =
      Except.error "HTTPError" ∧
    (GooglePlay.make_request ⟨200, Value.null⟩ ⟨403, Value.null⟩).1 = 1 ∧
    (GooglePlay.make_request ⟨200, Value.null⟩ ⟨403, Value.null⟩).2.1 = 0 := by
  have h1 := (c8_retry_once_on_401 ⟨401, Value.null⟩ ⟨403, Value.null⟩).1 (by decide)
  have h2 := (c8_retry_once_on_401 ⟨200, Value.null⟩ ⟨403, Value.null⟩).2 (by decide)
  exact ⟨h1.1, h1.2.1, h1.2.2.1 (by decide), h2.1, h2.2.1⟩

/-- Claim C7 (confirmed): the user-fetch stage is invoked once per distinct
author id appearing in any fetched comment and for no other id: the fetched
id list has no duplicates and contains exactly the author ids of the
comments; in particular three tickets whose comment author ids are 1 and 2,
2 and 3, and 1 produce exactly three fetches, for ids 1, 2 and 3. -/
theorem c7_distinct_user_fan_in :
    (∀ tcs : List (List Zendesk.Comment),
      (Orchestrator.unique_users tcs).Nodup ∧
      (∀ v, v ∈ Orchestrator.unique_users tcs ↔
        ∃ comments ∈ tcs, ∃ c ∈ comments, c.author_id = v)) ∧
    ((Orchestrator.unique_users
        [[exComment 1, exComment 2], [exComment 2, exComment 3], [exComment 1]]).length = 3 ∧
      Value.num 1 ∈ Orchestrator.unique_users
        [[exComment 1, exComment 2], [exComment 2, exComment 3], [exComment 1]] ∧
      Value.num 2 ∈ Orchestrator.unique_users
        [[exComment 1, exComment 2], [exComment 2, exComment 3], [exComment 1]] ∧
      Value.num 3 ∈ Orchestrator.unique_users
        [[exComment 1, exComment 2], [exComment 2, exComment 3], [exComment 1]]) := by
  constructor
  · intro tcs
    refine ⟨List.nodup_dedup _, fun v => ?_⟩
    rw [Orchestrator.unique_users, List.mem_dedup, List.mem_flatten]
    constructor
    · rintro ⟨l, hl, hv⟩
      rw [List.mem_map] at hl
      obtain ⟨cs, hcs, rfl⟩ := hl
      rw [List.mem_map] at hv
      obtain ⟨c, hc, rfl⟩ := hv
      exact ⟨cs, hcs, c, hc, rfl⟩
    · rintro ⟨cs, hcs, c, hc, rfl⟩
      exact ⟨cs.map (fun c => c.author_id), List.mem_map_of_mem _ hcs,
        List.mem_map_of_mem _ hc⟩
  · exact ⟨by decide, by decide, by decide, by decide⟩

/-- Witness for C7 at a single ticket with a single comment. -/
theorem c7_distinct_user_fan_in_witness :
    (Orchestrator.unique_users [[exComment 1]]).Nodup ∧
    Value.num 1 ∈ Orchestrator.unique_users [[exComment 1]] :=
  ⟨(c7_distinct_user_fan_in.1 [[exComment 1]]).1,
   ((c7_distinct_user_fan_in.1 [[exComment 1]]).2 (Value.num 1)).2
     ⟨[exComment 1], by decide, exComment 1, by decide, rfl⟩⟩

/-- Filtering for a test after filtering for its negation leaves nothing. -/
theorem filter_filter_not_nil {α} (q : α → Bool) (l : List α) :
    ((l.filter (fun a => !q a)).filter q) = [] := by
  induction l with
  | nil => rfl
  | cons x xs ih =>
    cases h : q x <;> simp [h, ih]

/-- Claim C1 (confirmed): the Entity upsert is last-write-wins on the natural
key: after upserting a row and then a second row with the same (id, source),
the table holds exactly one row for that key, and that row is the second row
in every field. -/
theorem c1_entity_upsert_last_write_wins
    (table : List Storage.EntityRow) (r1 r2 : Storage.EntityRow)
    (hid : r1.id = r2.id) (hsource : r1.source = r2.source) :
    Storage.rowsWithKey
      (Storage.store_entities (Storage.store_entities table [r1]) [r2]) r2.id r2.source
      = [r2] := by
  show Storage.rowsWithKey
    (Storage.upsertEntityRow (Storage.upsertEntityRow table r1) r2) r2.id r2.source = [r2]
  unfold Storage.upsertEntityRow Storage.rowsWithKey
  rw [hid, hsource]
  simp only [List.filter_append, decide_not]
  rw [filter_filter_not_nil, filter_filter_not_nil]
  simp

/-- Witness for C1: two rows with key ("42", "hubspot") and different name
and email values; the second wins. -/
theorem c1_entity_upsert_last_write_wins_witness :
    Storage.rowsWithKey
      (Storage.store_entities
        (Storage.store_entities [] [exEntityRow "Ada" "ada@a.c"])
        [exEntityRow "Bob" "bob@b.c"]) "42" "hubspot"
      = [exEntityRow "Bob" "bob@b.c"] :=
  c1_entity_upsert_last_write_wins [] (exEntityRow "Ada" "ada@a.c")
    (exEntityRow "Bob" "bob@b.c") rfl rfl

/-- A key excluded by a key filter cannot be looked up in the result. -/
theorem pyGet_filter_excluded (l : Obj) (ks : List String) (k : String) (hk : k ∈ ks) :
    pyGet (l.filter (fun p => decide (p.1 ∉ ks))) k = none := by
  unfold pyGet
  rw [List.find?_eq_none.2]
  · rfl
  · intro x hx
    rw [List.mem_filter] at hx
    have hnot := of_decide_eq_true hx.2
    simp only [decide_eq_true_eq]
    intro hxk
    exact hnot (hxk ▸ hk)

/-- Looking up a key past a run of bindings that cannot match it. -/
theorem pyGet_append_of_none (a b : Obj) (k : String) (h : pyGet a k = none) :
    pyGet (a ++ b) k = pyGet b k := by
  unfold pyGet at h ⊢
  rw [List.find?_append]
  cases hfa : a.find? (fun p => decide (p.1 = k)) with
  | none => rfl
  | some x => rw [hfa] at h; cases h

/-- The payload a normalized contact carries is the contactPayload of its raw
record. -/
theorem normalizeContact_payload (c : Obj) (e : HubSpot.Contact)
    (h : HubSpot.normalizeContact c = Except.ok e) :
    e.json_payload = Value.obj (HubSpot.contactPayload c) := by
  unfold HubSpot.normalizeContact at h
  cases hid : pyGet c "id" with
  | none => rw [hid] at h; cases h
  | some cid => rw [hid] at h; cases h; rfl

/-- Reading a dict wrapped as a value unwraps it. -/
theorem asObj_obj (l : Obj) : asObj (Value.obj l) = l := rfl

/-- Defaulting lookup past a run of bindings that cannot match the key. -/
theorem pyGetD_append_of_none (a b : Obj) (k : String) (d : Value)
    (h : pyGet a k = none) : pyGetD (a ++ b) k d = pyGetD b k d := by
  unfold pyGetD
  rw [pyGet_append_of_none a b k h]

/-- Defaulting lookup of a key excluded by a key filter yields the default. -/
theorem pyGetD_filter_excluded (l : Obj) (ks : List String) (k : String) (d : Value)
    (hk : k ∈ ks) : pyGetD (l.filter (fun p => decide (p.1 ∉ ks))) k d = d := by
  unfold pyGetD
  rw [pyGet_filter_excluded l ks k hk]
  rfl

/-- Defaulting lookup in a singleton dict of the same key. -/
theorem pyGetD_singleton_self (k : String) (v d : Value) : pyGetD [(k, v)] k d = v := by
  simp [pyGetD, pyGet]

/-- Defaulting lookup of an absent key yields the default. -/
theorem pyGetD_of_none (l : Obj) (k : String) (d : Value) (h : pyGet l k = none) :
    pyGetD l k d = d := by
  unfold pyGetD
  rw [h]
  rfl

/-- The lifecyclestage recoverable from the payload of a normalized contact
is always the empty-string default: fetch_contacts filters lifecyclestage
out of the payload properties before serializing. -/
theorem normalizeContact_payload_lifecyclestage (c : Obj) (e : HubSpot.Contact)
    (h : HubSpot.normalizeContact c = Except.ok e) :
    HubSpot.contactPayloadLifecyclestage e = Value.str "" := by
  unfold HubSpot.contactPayloadLifecyclestage
  rw [normalizeContact_payload c e h, asObj_obj]
  unfold HubSpot.contactPayload
  rw [pyGetD_append_of_none _ _ _ _ (pyGet_filter_excluded _ _ _ (by decide))]
  rw [pyGetD_singleton_self, asObj_obj]
  rw [pyGetD_filter_excluded _ _ _ _ (by decide)]

/-- A member of the result of a successful mapExceptList comes from some
input. -/
theorem mapExceptList_ok_mem {α β : Type} (f : α → Except String β) (rs : List α)
    (cs : List β) (h : mapExceptList f rs = Except.ok cs) (e : β) (he : e ∈ cs) :
    ∃ r ∈ rs, f r = Except.ok e := by
  induction rs generalizing cs with
  | nil => cases h; cases he
  | cons r rest ih =>
    rw [mapExceptList] at h
    cases hr : f r with
    | error msg => rw [hr] at h; cases h
    | ok e0 =>
      rw [hr] at h
      cases hrest : mapExceptList f rest with
      | error msg => rw [hrest] at h; cases h
      | ok es =>
        rw [hrest] at h
        cases h
        cases he with
        | head => exact ⟨r, List.mem_cons_self r rest, hr⟩
        | tail _ htail =>
          obtain ⟨r1, hr1, hok⟩ := ih es hrest htail
          exact ⟨r1, List.mem_cons_of_mem r hr1, hok⟩

/-- Claim C3 (code_bug): lead derivation never fires on the code as written.
For every list of raw contacts that normalizes successfully, fetch_leads
returns no Relationship row at all, because fetch_contacts strips
lifecyclestage out of the payload before serializing it, and the lead filter
reads lifecyclestage back from that payload; thus the case-insensitive
matches the claim requires (including the Lead and LEAD contacts of the
spec) produce nothing.  (Were the filter ever to match, the row construction
would raise AttributeError in Python, since it calls .get on the serialized
payload string.) -/
theorem c3_lead_derivation_never_fires (rs : List Obj) (cs : List HubSpot.Contact)
    (h : mapExceptList HubSpot.normalizeContact rs = Except.ok cs) :
    HubSpot.fetch_leads cs = [] := by
  unfold HubSpot.fetch_leads
  rw [List.filter_eq_nil_iff.2, List.map_nil]
  intro e he
  obtain ⟨r, _, hok⟩ := mapExceptList_ok_mem HubSpot.normalizeContact rs cs h e he
  rw [normalizeContact_payload_lifecyclestage r e hok]
  decide

/-- Witness for C3 at the failing input of the claim: four contacts with
lifecyclestage Lead, customer, LEAD and empty produce zero Relationship
rows, where the claim requires two. -/
theorem c3_lead_derivation_never_fires_witness :
    ∃ cs, mapExceptList HubSpot.normalizeContact leadsInput = Except.ok cs ∧
      HubSpot.fetch_leads cs = [] := by
  refine ⟨[leadNormContact "1", leadNormContact "2", leadNormContact "3", leadNormContact "4"],
    rfl, ?_⟩
  exact c3_lead_derivation_never_fires leadsInput _ rfl

/-- Unfolding mapExceptList on a cons cell. -/
theorem mapExceptList_cons {a b : Type} (f : a → Except String b) (x : a) (xs : List a) :
    mapExceptList f (x :: xs) =
      (f x >>= fun y => mapExceptList f xs >>= fun ys => Except.ok (y :: ys)) := rfl

/-- The contact pagination loop on a response sequence satisfying
contactsChain consumes every response exactly once and concatenates the
per-response results in order. -/
theorem fetch_contacts_on_chain (pages : List Obj)
    (h : HubSpot.contactsChain pages = true) :
    HubSpot.fetch_contacts pages =
      (mapExceptList HubSpot.pageContacts pages).map
        (fun css => (css.flatten, pages.length)) := by
  induction pages with
  | nil => exact absurd h (by decide)
  | cons data rest ih =>
    cases rest with
    | nil =>
      have hcond : (truthy (pyGetD data "paging" Value.null) &&
          truthy (pyGetD (asObj (pyGetD data "paging" Value.null)) "next" Value.null))
          = false := by
        simp only [HubSpot.contactsChain, Bool.not_eq_true'] at h
        exact h
      rw [HubSpot.fetch_contacts]
      cases hp : HubSpot.pageContacts data with
      | error msg =>
        rw [mapExceptList_cons, hp]
        rfl
      | ok page =>
        rw [mapExceptList_cons, hp, hcond]
        show Except.ok (page, 1) = Except.ok (page ++ [], 1)
        rw [List.append_nil]
    | cons data2 rest2 =>
      have h' := h
      simp only [HubSpot.contactsChain, Bool.and_eq_true] at h'
      obtain ⟨⟨⟨hc1, hc2⟩, hc3⟩, hrest⟩ := h'
      obtain ⟨cursor, hcursor⟩ := Option.isSome_iff_exists.1 hc3
      rw [HubSpot.fetch_contacts]
      cases hp : HubSpot.pageContacts data with
      | error msg =>
        rw [mapExceptList_cons, hp]
        rfl
      | ok page =>
        rw [mapExceptList_cons, hp, hc1, hc2, hcursor, ih hrest]
        cases hq : mapExceptList HubSpot.pageContacts (data2 :: rest2) with
        | error msg => rfl
        | ok css => rfl

/-- The ticket pagination loop on a response sequence satisfying ticketsChain
consumes every response exactly once and concatenates the per-response
results in order. -/
theorem fetch_tickets_on_chain (pages : List Obj)
    (h : Zendesk.ticketsChain pages = true) :
    Zendesk.fetch_tickets pages =
      (mapExceptList Zendesk.pageTickets pages).map
        (fun tss => (tss.flatten, pages.length)) := by
  induction pages with
  | nil => exact absurd h (by decide)
  | cons data rest ih =>
    cases rest with
    | nil =>
      have hcond : truthy (pyGetD data "next_page" Value.null) = false := by
        simp only [Zendesk.ticketsChain, Bool.not_eq_true'] at h
        exact h
      rw [Zendesk.fetch_tickets]
      cases hp : Zendesk.pageTickets data with
      | error msg =>
        rw [mapExceptList_cons, hp]
        rfl
      | ok page =>
        rw [mapExceptList_cons, hp, hcond]
        show Except.ok (page, 1) = Except.ok (page ++ [], 1)
        rw [List.append_nil]
    | cons data2 rest2 =>
      have h' := h
      simp only [Zendesk.ticketsChain, Bool.and_eq_true] at h'
      obtain ⟨⟨hc1, hc2⟩, hrest⟩ := h'
      obtain ⟨seg, hseg⟩ := Option.isSome_iff_exists.1 hc2
      rw [Zendesk.fetch_tickets]
      cases hp : Zendesk.pageTickets data with
      | error msg =>
        rw [mapExceptList_cons, hp]
        rfl
      | ok page =>
        rw [mapExceptList_cons, hp, hc1, hseg, ih hrest]
        cases hq : mapExceptList Zendesk.pageTickets (data2 :: rest2) with
        | error msg => rfl
        | ok tss => rfl

/-- Counterexample for C5: a raw comment carrying id and author_id but
missing its promoted public field normalizes with is_public True — a
non-empty-string, non-null boolean column — where the claim requires the
empty string. -/
theorem c5_public_defaults_true_counterexample :
    Zendesk.normalizeComment (Value.num 1) [("id", Value.num 9), ("author_id", Value.num 3)]
      = Except.ok
        { id := Value.num 9, entity_type := "ticket", entity_id := Value.num 1,
          author_id := Value.num 3, body := Value.str "", created_at := Value.str "",
          is_public := Value.bool true, source := "zendesk", json_payload := Value.obj [] } ∧
    Value.bool true ≠ Value.str "" :=
  ⟨rfl, by decide⟩

/-- Claim C5 as amended (corrected): a raw record missing a non-identifier
promoted field normalizes successfully with the empty string in the
corresponding column — for the contact, company, deal, ticket, comment,
user and review normalizers — except the comment public flag, which
defaults to True when absent. -/
theorem c5_missing_field_empty_string_default :
    (∀ c e, HubSpot.normalizeContact c = Except.ok e →
      (pyGet (asObj (pyGetD c "properties" (Value.obj []))) "email" = none →
        e.email = Value.str "") ∧
      (pyGet (asObj (pyGetD c "properties" (Value.obj []))) "createdate" = none →
        e.created_at = Value.str "") ∧
      (pyGet (asObj (pyGetD c "properties" (Value.obj []))) "lastmodifieddate" = none →
        e.updated_at = Value.str "") ∧
      (pyGet (asObj (pyGetD c "properties" (Value.obj []))) "firstname" = none →
        pyGet (asObj (pyGetD c "properties" (Value.obj []))) "lastname" = none →
        e.name = "")) ∧
    (∀ c e, HubSpot.normalizeCompany c = Except.ok e →
      (pyGet (asObj (pyGetD c "properties" (Value.obj []))) "name" = none →
        e.name = Value.str "") ∧
      (pyGet (asObj (pyGetD c "properties" (Value.obj []))) "domain" = none →
        e.domain = Value.str "") ∧
      (pyGet (asObj (pyGetD c "properties" (Value.obj []))) "createdate" = none →
        e.created_at = Value.str "") ∧
      (pyGet (asObj (pyGetD c "properties" (Value.obj []))) "lastmodifieddate" = none →
        e.updated_at = Value.str "")) ∧
    (∀ d e, HubSpot.normalizeDeal d = Except.ok e →
      (pyGet (asObj (pyGetD d "properties" (Value.obj []))) "dealname" = none →
        e.name = Value.str "") ∧
      (pyGet (asObj (pyGetD d "properties" (Value.obj []))) "dealstage" = none →
        e.status = Value.str "") ∧
      (pyGet (asObj (pyGetD d "properties" (Value.obj []))) "amount" = none →
        e.amount = Value.str "") ∧
      (pyGet (asObj (pyGetD d "properties" (Value.obj []))) "createdate" = none →
        e.created_at = Value.str "") ∧
      (pyGet (asObj (pyGetD d "properties" (Value.obj []))) "lastmodifieddate" = none →
        e.updated_at = Value.str "")) ∧
    (∀ t e, Zendesk.normalizeTicket t = Except.ok e →
      (pyGet t "subject" = none → e.name = Value.str "") ∧
      (pyGet t "status" = none → e.status = Value.str "") ∧
      (pyGet t "created_at" = none → e.created_at = Value.str "") ∧
      (pyGet t "updated_at" = none → e.updated_at = Value.str "")) ∧
    (∀ tid c e, Zendesk.normalizeComment tid c = Except.ok e →
      (pyGet c "body" = none → e.body = Value.str "") ∧
      (pyGet c "created_at" = none → e.created_at = Value.str "") ∧
      (pyGet c "public" = none → e.is_public = Value.bool true)) ∧
    (∀ u,
      (pyGet u "name" = none → (Zendesk.normalizeUser u).name = Value.str "") ∧
      (pyGet u "email" = none → (Zendesk.normalizeUser u).email = Value.str "") ∧
      (pyGet u "role" = none → (Zendesk.normalizeUser u).role = Value.str "") ∧
      (pyGet u "created_at" = none → (Zendesk.normalizeUser u).created_at = Value.str "") ∧
      (pyGet u "updated_at" = none → (Zendesk.normalizeUser u).updated_at = Value.str "")) ∧
    (∀ p t r e, GooglePlay.normalizeReview p t r = Except.ok e →
      (pyGet (GooglePlay.reviewUserComment r) "starRating" = none → e.rating = "") ∧
      (pyGet (GooglePlay.reviewUserComment r) "text" = none → e.comment = Value.str "")) := by
  refine ⟨?_, ?_, ?_, ?_, ?_, ?_, ?_⟩
  · intro c e h
    unfold HubSpot.normalizeContact at h
    cases hid : pyGet c "id" with
    | none => rw [hid] at h; cases h
    | some cid =>
      rw [hid] at h
      cases h
      refine ⟨fun hp => ?_, fun hp => ?_, fun hp => ?_, fun hp hq => ?_⟩
      · exact pyGetD_of_none _ _ _ hp
      · exact pyGetD_of_none _ _ _ hp
      · exact pyGetD_of_none _ _ _ hp
      · show pyStrip
            (pyStr (pyGetD (asObj (pyGetD c "properties" (Value.obj []))) "firstname"
              (Value.str "")) ++ " " ++
             pyStr (pyGetD (asObj (pyGetD c "properties" (Value.obj []))) "lastname"
              (Value.str ""))) = ""
        rw [pyGetD_of_none _ _ _ hp, pyGetD_of_none _ _ _ hq]
        decide
  · intro c e h
    unfold HubSpot.normalizeCompany at h
    cases hid : pyGet c "id" with
    | none => rw [hid] at h; cases h
    | some cid =>
      rw [hid] at h
      cases h
      refine ⟨fun hp => ?_, fun hp => ?_, fun hp => ?_, fun hp => ?_⟩ <;>
        exact pyGetD_of_none _ _ _ hp
  · intro d e h
    unfold HubSpot.normalizeDeal at h
    cases hid : pyGet d "id" with
    | none => rw [hid] at h; cases h
    | some did =>
      rw [hid] at h
      cases h
      refine ⟨fun hp => ?_, fun hp => ?_, fun hp => ?_, fun hp => ?_, fun hp => ?_⟩ <;>
        exact pyGetD_of_none _ _ _ hp
  · intro t e h
    unfold Zendesk.normalizeTicket at h
    cases hid : pyGet t "id" with
    | none => rw [hid] at h; cases h
    | some tid =>
      rw [hid] at h
      cases h
      refine ⟨fun hp => ?_, fun hp => ?_, fun hp => ?_, fun hp => ?_⟩ <;>
        exact pyGetD_of_none _ _ _ hp
  · intro tid c e h
    unfold Zendesk.normalizeComment at h
    cases hcid : pyGet c "id" with
    | none => rw [hcid] at h; cases h
    | some cid =>
      cases haid : pyGet c "author_id" with
      | none => rw [hcid, haid] at h; cases h
      | some aid =>
        rw [hcid, haid] at h
        cases h
        refine ⟨fun hp => ?_, fun hp => ?_, fun hp => ?_⟩ <;>
          exact pyGetD_of_none _ _ _ hp
  · intro u
    refine ⟨fun hp => ?_, fun hp => ?_, fun hp => ?_, fun hp => ?_, fun hp => ?_⟩ <;>
      exact pyGetD_of_none _ _ _ hp
  · intro p t r e h
    unfold GooglePlay.normalizeReview at h
    cases hc : (asArr (pyGetD r "comments" (Value.arr [Value.obj []]))).head? with
    | none => rw [hc] at h; cases h
    | some c0 =>
      rw [hc] at h
      cases h
      refine ⟨fun hp => ?_, fun hp => ?_⟩
      · show pyStr (pyGetD (GooglePlay.reviewUserComment r) "starRating" (Value.str "")) = ""
        rw [pyGetD_of_none _ _ _ hp]
        rfl
      · exact pyGetD_of_none _ _ _ hp

/-- Witness for C5 at concrete records missing all their optional promoted
fields: a bare contact, company, deal, ticket, comment and user. -/
theorem c5_missing_field_empty_string_default_witness :
    HubSpot.normalizeContact [("id", Value.str "1")] = Except.ok (leadNormContact "1") ∧
    (leadNormContact "1").email = Value.str "" ∧ (leadNormContact "1").name = "" ∧
    HubSpot.normalizeCompany [("id", Value.str "9")]
      = Except.ok ({ id := Value.str "9", type := "company", name := Value.str "",
                     domain := Value.str "", created_at := Value.str "",
                     updated_at := Value.str "", source := "hubspot",
                     json_payload := Value.obj [("properties", Value.obj [])] }
                    : HubSpot.Company) ∧
    (({ id := Value.str "9", type := "company", name := Value.str "",
        domain := Value.str "", created_at := Value.str "", updated_at := Value.str "",
        source := "hubspot", json_payload := Value.obj [("properties", Value.obj [])] }
       : HubSpot.Company).name = Value.str "") ∧
    HubSpot.normalizeDeal [("id", Value.str "8")]
      = Except.ok ({ id := Value.str "8", type := "deal", name := Value.str "",
                     status := Value.str "", amount := Value.str "",
                     created_at := Value.str "", updated_at := Value.str "",
                     source := "hubspot",
                     json_payload := Value.obj [("properties", Value.obj [])] }
                    : HubSpot.Deal) ∧
    (({ id := Value.str "8", type := "deal", name := Value.str "", status := Value.str "",
        amount := Value.str "", created_at := Value.str "", updated_at := Value.str "",
        source := "hubspot", json_payload := Value.obj [("properties", Value.obj [])] }
       : HubSpot.Deal).amount = Value.str "") ∧
    Zendesk.normalizeTicket [("id", Value.num 2)]
      = Except.ok ({ id := Value.num 2, type := "ticket", name := Value.str "",
                     status := Value.str "", created_at := Value.str "",
                     updated_at := Value.str "", source := "zendesk",
                     json_payload := Value.obj [] } : Zendesk.Ticket) ∧
    (({ id := Value.num 2, type := "ticket", name := Value.str "", status := Value.str "",
        created_at := Value.str "", updated_at := Value.str "", source := "zendesk",
        json_payload := Value.obj [] } : Zendesk.Ticket).name = Value.str "") ∧
    (Zendesk.normalizeUser []).name = Value.str "" := by
  have hc := c5_missing_field_empty_string_default.1 [("id", Value.str "1")]
    (leadNormContact "1") rfl
  have hco := c5_missing_field_empty_string_default.2.1 [("id", Value.str "9")]
    { id := Value.str "9", type := "company", name := Value.str "",
      domain := Value.str "", created_at := Value.str "", updated_at := Value.str "",
      source := "hubspot", json_payload := Value.obj [("properties", Value.obj [])] } rfl
  have hd := c5_missing_field_empty_string_default.2.2.1 [("id", Value.str "8")]
    { id := Value.str "8", type := "deal", name := Value.str "", status := Value.str "",
      amount := Value.str "", created_at := Value.str "", updated_at := Value.str "",
      source := "hubspot", json_payload := Value.obj [("properties", Value.obj [])] } rfl
  have ht := c5_missing_field_empty_string_default.2.2.2.1 [("id", Value.num 2)]
    { id := Value.num 2, type := "ticket", name := Value.str "", status := Value.str "",
      created_at := Value.str "", updated_at := Value.str "", source := "zendesk",
      json_payload := Value.obj [] } rfl
  have hu := c5_missing_field_empty_string_default.2.2.2.2.2.1 []
  exact ⟨rfl, hc.1 rfl, hc.2.2.2 rfl rfl, rfl, hco.1 rfl, rfl, hd.2.2.1 rfl, rfl,
    ht.1 rfl, hu.1 rfl⟩

/-- A key of a key-filtered dict is a key of the dict outside the excluded
set, and conversely. -/
theorem mem_objKeys_filter (d : Obj) (ks : List String) (k : String) :
    k ∈ objKeys (d.filter (fun p => decide (p.1 ∉ ks))) ↔ (k ∈ objKeys d ∧ k ∉ ks) := by
  unfold objKeys
  constructor
  · intro h
    obtain ⟨p, hp, rfl⟩ := List.mem_map.1 h
    have hpf := List.mem_filter.1 hp
    exact ⟨List.mem_map.2 ⟨p, hpf.1, rfl⟩, by simpa using hpf.2⟩
  · rintro ⟨h1, h2⟩
    obtain ⟨p, hp, rfl⟩ := List.mem_map.1 h1
    exact List.mem_map.2 ⟨p, List.mem_filter.2 ⟨hp, by simpa using h2⟩, rfl⟩

/-- Every key of a dict is promoted or recoverable from the key-filtered
remainder, and conversely. -/
theorem keys_filter_cover (d : Obj) (ks : List String) (k : String) :
    k ∈ objKeys d ↔
      (k ∈ ks ∧ k ∈ objKeys d) ∨ k ∈ objKeys (d.filter (fun p => decide (p.1 ∉ ks))) := by
  rw [mem_objKeys_filter]
  by_cases hk : k ∈ ks
  · simp [hk]
  · simp [hk]

/-- Top-level membership in the flattened field set. -/
theorem top_mem_hsFieldRefs (d : Obj) (k : String) :
    FieldRef.top k ∈ hsFieldRefs d ↔ (k ∈ objKeys d ∧ k ≠ "properties") := by
  simp [hsFieldRefs, List.mem_filter, and_assoc]

/-- Property membership in the flattened field set. -/
theorem prop_mem_hsFieldRefs (d : Obj) (k : String) :
    FieldRef.prop k ∈ hsFieldRefs d ↔
      k ∈ objKeys (asObj (pyGetD d "properties" (Value.obj []))) := by
  simp [hsFieldRefs, List.mem_filter]

/-- The keys of the contact overflow payload: the surviving top-level keys
plus the appended properties entry. -/
theorem objKeys_contactPayload (c : Obj) :
    objKeys (HubSpot.contactPayload c) =
      objKeys (c.filter
        (fun p => decide (p.1 ∉ ["id", "properties", "createdAt", "updatedAt"])))
        ++ ["properties"] := by
  unfold HubSpot.contactPayload objKeys
  rw [List.map_append]
  rfl

/-- The properties entry of the contact overflow payload is the filtered
properties object. -/
theorem contactPayload_props (c : Obj) :
    pyGetD (HubSpot.contactPayload c) "properties" (Value.obj []) =
      Value.obj ((asObj (pyGetD c "properties" (Value.obj []))).filter
        (fun p => decide (p.1 ∉ HubSpot.contactPromotedProps))) := by
  unfold HubSpot.contactPayload
  rw [pyGetD_append_of_none _ _ _ _ (pyGet_filter_excluded _ _ _ (by decide))]
  exact pyGetD_singleton_self _ _ _

/-- The fields recoverable from the contact overflow payload are exactly the
fields of the raw record that are neither promoted nor dropped. -/
theorem mem_hsFieldRefs_contactPayload (c : Obj) (f : FieldRef) :
    f ∈ hsFieldRefs (HubSpot.contactPayload c) ↔
      (f ∈ hsFieldRefs c ∧ f ∉ contactPromotedRefs ∧ f ∉ contactDroppedRefs) := by
  cases f with
  | top k =>
    rw [top_mem_hsFieldRefs, top_mem_hsFieldRefs, objKeys_contactPayload,
      List.mem_append, mem_objKeys_filter]
    by_cases h1 : k = "id" <;> by_cases h2 : k = "properties" <;>
      by_cases h3 : k = "createdAt" <;> by_cases h4 : k = "updatedAt" <;>
      simp_all [contactPromotedRefs, contactDroppedRefs]
  | prop k =>
    rw [prop_mem_hsFieldRefs, prop_mem_hsFieldRefs, contactPayload_props, asObj_obj,
      mem_objKeys_filter]
    by_cases h1 : k = "firstname" <;> by_cases h2 : k = "lastname" <;>
      by_cases h3 : k = "email" <;> by_cases h4 : k = "createdate" <;>
      by_cases h5 : k = "lastmodifieddate" <;> by_cases h6 : k = "lifecyclestage" <;>
      simp_all [HubSpot.contactPromotedProps, contactPromotedRefs, contactDroppedRefs]

/-- Counterexample for C2: for a concrete raw contact, the lifecyclestage
property and the top-level createdAt field belong to the full field set but
neither to the promoted fields nor to the fields recoverable from the
produced json_payload — they are silently dropped, where the claim requires
the union to cover every input field. -/
theorem c2_overflow_completeness_counterexample :
    FieldRef.prop "lifecyclestage" ∈ hsFieldRefs overflowContact ∧
    FieldRef.prop "lifecyclestage" ∉ contactPromotedRefs ∧
    FieldRef.prop "lifecyclestage" ∉ hsFieldRefs (HubSpot.contactPayload overflowContact) ∧
    FieldRef.top "createdAt" ∈ hsFieldRefs overflowContact ∧
    FieldRef.top "createdAt" ∉ contactPromotedRefs ∧
    FieldRef.top "createdAt" ∉ hsFieldRefs (HubSpot.contactPayload overflowContact) := by
  decide

/-- Claim C2 as amended (corrected): overflow completeness holds exactly for
the flat Zendesk normalizers — every key of a raw ticket, comment or user is
promoted or recoverable from its json_payload, and conversely — while the
HubSpot contact normalizer stores exactly the fields that are neither
promoted nor dropped in its payload, the dropped set being top-level
createdAt and updatedAt and the lifecyclestage property; every non-dropped
contact field is still promoted or recoverable. -/
theorem c2_overflow_completeness_amended :
    (∀ t k, k ∈ objKeys t ↔
      (k ∈ ticketPromotedKeys ∧ k ∈ objKeys t) ∨ k ∈ objKeys (Zendesk.ticketPayload t)) ∧
    (∀ c k, k ∈ objKeys c ↔
      (k ∈ commentPromotedKeys ∧ k ∈ objKeys c) ∨ k ∈ objKeys (Zendesk.commentPayload c)) ∧
    (∀ u k, k ∈ objKeys u ↔
      (k ∈ userPromotedKeys ∧ k ∈ objKeys u) ∨ k ∈ objKeys (Zendesk.userPayload u)) ∧
    (∀ c f, f ∈ hsFieldRefs (HubSpot.contactPayload c) ↔
      (f ∈ hsFieldRefs c ∧ f ∉ contactPromotedRefs ∧ f ∉ contactDroppedRefs)) ∧
    (∀ c f, f ∈ hsFieldRefs c → f ∉ contactDroppedRefs →
      f ∈ contactPromotedRefs ∨ f ∈ hsFieldRefs (HubSpot.contactPayload c)) := by
  refine ⟨?_, ?_, ?_, mem_hsFieldRefs_contactPayload, ?_⟩
  · intro t k
    exact keys_filter_cover t ticketPromotedKeys k
  · intro c k
    exact keys_filter_cover c commentPromotedKeys k
  · intro u k
    exact keys_filter_cover u userPromotedKeys k
  · intro c f hf hdrop
    by_cases hprom : f ∈ contactPromotedRefs
    · exact Or.inl hprom
    · exact Or.inr ((mem_hsFieldRefs_contactPayload c f).2 ⟨hf, hprom, hdrop⟩)

/-- Witness for C2 as amended, at the concrete overflowContact and a
concrete ticket. -/
theorem c2_overflow_completeness_amended_witness :
    ("archived" ∈ objKeys overflowContact ↔
      ("archived" ∈ ticketPromotedKeys ∧ "archived" ∈ objKeys overflowContact) ∨
        "archived" ∈ objKeys (Zendesk.ticketPayload overflowContact)) ∧
    (FieldRef.top "archived" ∈ hsFieldRefs (HubSpot.contactPayload overflowContact) ↔
      (FieldRef.top "archived" ∈ hsFieldRefs overflowContact ∧
        FieldRef.top "archived" ∉ contactPromotedRefs ∧
        FieldRef.top "archived" ∉ contactDroppedRefs)) ∧
    (FieldRef.prop "custom_score" ∈ contactPromotedRefs ∨
      FieldRef.prop "custom_score" ∈ hsFieldRefs (HubSpot.contactPayload overflowContact)) :=
  ⟨c2_overflow_completeness_amended.1 overflowContact "archived",
   c2_overflow_completeness_amended.2.2.2.1 overflowContact (FieldRef.top "archived"),
   c2_overflow_completeness_amended.2.2.2.2 overflowContact (FieldRef.prop "custom_score")
     (by decide) (by decide)⟩

/-- Counterexample for C6: a raw comment carrying its id but no author_id
raises KeyError although its identifier is present; a raw user record
missing its id raises nothing, normalizing to a null id; a raw review
carrying its reviewId but an empty comments list raises IndexError. -/
theorem c6_identifier_fault_counterexample :
    Zendesk.normalizeComment (Value.num 1) [("id", Value.num 5)]
      = Except.error "KeyError: author_id" ∧
    Zendesk.normalizeUser []
      = { id := Value.null, type := "user", name := Value.str "", email := Value.str "",
          role := Value.str "", created_at := Value.str "", updated_at := Value.str "",
          source := "zendesk", json_payload := Value.obj [] } ∧
    GooglePlay.normalizeReview "app" "t"
        [("reviewId", Value.str "r1"), ("comments", Value.arr [])]
      = Except.error "IndexError: list index out of range" :=
  ⟨rfl, rfl, rfl⟩

/-- Claim C6 as amended (corrected): the contact, company, deal and ticket
normalizers raise exactly when the record lacks its id; the comment
normalizer raises exactly when the record lacks its id or its author_id; the
user normalizer never raises and maps a missing id to null; the review
normalizer raises exactly when the comments list of the record is present
and empty, and maps a missing reviewId to null. -/
theorem c6_missing_identifier_behavior :
    (∀ c : Obj, (∃ e, HubSpot.normalizeContact c = Except.ok e) ↔
      (pyGet c "id").isSome = true) ∧
    (∀ c : Obj, (∃ e, HubSpot.normalizeCompany c = Except.ok e) ↔
      (pyGet c "id").isSome = true) ∧
    (∀ d : Obj, (∃ e, HubSpot.normalizeDeal d = Except.ok e) ↔
      (pyGet d "id").isSome = true) ∧
    (∀ t : Obj, (∃ e, Zendesk.normalizeTicket t = Except.ok e) ↔
      (pyGet t "id").isSome = true) ∧
    (∀ tid c, (∃ e, Zendesk.normalizeComment tid c = Except.ok e) ↔
      ((pyGet c "id").isSome = true ∧ (pyGet c "author_id").isSome = true)) ∧
    (∀ u, pyGet u "id" = none → (Zendesk.normalizeUser u).id = Value.null) ∧
    (∀ p t r, (∃ e, GooglePlay.normalizeReview p t r = Except.ok e) ↔
      ((asArr (pyGetD r "comments" (Value.arr [Value.obj []]))).head?).isSome = true) ∧
    (∀ p t r e, GooglePlay.normalizeReview p t r = Except.ok e →
      pyGet r "reviewId" = none → e.id = Value.null) := by
  refine ⟨?_, ?_, ?_, ?_, ?_, ?_, ?_, ?_⟩
  · intro c
    unfold HubSpot.normalizeContact
    cases h : pyGet c "id" with
    | none => simp
    | some v => simp
  · intro c
    unfold HubSpot.normalizeCompany
    cases h : pyGet c "id" with
    | none => simp
    | some v => simp
  · intro d
    unfold HubSpot.normalizeDeal
    cases h : pyGet d "id" with
    | none => simp
    | some v => simp
  · intro t
    unfold Zendesk.normalizeTicket
    cases h : pyGet t "id" with
    | none => simp
    | some v => simp
  · intro tid c
    unfold Zendesk.normalizeComment
    cases h1 : pyGet c "id" with
    | none => simp
    | some v =>
      cases h2 : pyGet c "author_id" with
      | none => simp
      | some w => simp
  · intro u h
    show pyGetD u "id" Value.null = Value.null
    exact pyGetD_of_none _ _ _ h
  · intro p t r
    unfold GooglePlay.normalizeReview
    cases h : (asArr (pyGetD r "comments" (Value.arr [Value.obj []]))).head? with
    | none => simp
    | some c0 => simp
  · intro p t r e h hid
    unfold GooglePlay.normalizeReview at h
    cases hc : (asArr (pyGetD r "comments" (Value.arr [Value.obj []]))).head? with
    | none => rw [hc] at h; cases h
    | some c0 =>
      rw [hc] at h
      cases h
      show pyGetD r "reviewId" Value.null = Value.null
      exact pyGetD_of_none _ _ _ hid

/-- Witness for C6 as amended, at records that carry and lack the relevant
identifiers. -/
theorem c6_missing_identifier_behavior_witness :
    (∃ e, HubSpot.normalizeContact [("id", Value.str "1")] = Except.ok e) ∧
    ¬ (∃ e, HubSpot.normalizeContact [("email", Value.str "a@b.c")] = Except.ok e) ∧
    (∃ e, Zendesk.normalizeComment (Value.num 1)
      [("id", Value.num 5), ("author_id", Value.num 3)] = Except.ok e) ∧
    ¬ (∃ e, Zendesk.normalizeComment (Value.num 1) [("id", Value.num 5)] = Except.ok e) ∧
    (Zendesk.normalizeUser []).id = Value.null ∧
    ¬ (∃ e, GooglePlay.normalizeReview "app" "t"
      [("comments", Value.arr [])] = Except.ok e) := by
  refine ⟨?_, ?_, ?_, ?_, ?_, ?_⟩
  · exact (c6_missing_identifier_behavior.1 _).2 rfl
  · intro hex
    exact absurd ((c6_missing_identifier_behavior.1 _).1 hex) (by decide)
  · exact (c6_missing_identifier_behavior.2.2.2.2.1 _ _).2 (by decide)
  · intro hex
    exact absurd ((c6_missing_identifier_behavior.2.2.2.2.1 _ _).1 hex).2 (by decide)
  · exact c6_missing_identifier_behavior.2.2.2.2.2.1 [] rfl
  · intro hex
    exact absurd ((c6_missing_identifier_behavior.2.2.2.2.2.2.1 _ _ _).1 hex) (by decide)

/-- The fixed source and type tags a normalized contact carries. -/
theorem normalizeContact_src_type (c : Obj) (e : HubSpot.Contact)
    (h : HubSpot.normalizeContact c = Except.ok e) :
    e.source = "hubspot" ∧ e.type = "contact" := by
  unfold HubSpot.normalizeContact at h
  cases hid : pyGet c "id" with
  | none => rw [hid] at h; cases h
  | some cid => rw [hid] at h; cases h; exact ⟨rfl, rfl⟩

/-- The id of a normalized contact is the id field of its raw record. -/
theorem normalizeContact_id (c : Obj) (e : HubSpot.Contact) (v : Value)
    (h : HubSpot.normalizeContact c = Except.ok e) (hid : pyGet c "id" = some v) :
    e.id = v := by
  unfold HubSpot.normalizeContact at h
  rw [hid] at h
  cases h
  rfl

/-- Counterexample for C9: at the two-page scenario with a first contact
carrying a non-promoted lifecyclestage property, the run succeeds with two
rows, but the first row has a payload that does not recover lifecyclestage —
so its json_payload does not parse back to exactly the non-promoted fields
of the input record, as the claim requires. -/
theorem c9_payload_drops_fields_counterexample :
    HubSpot.fetch_contacts
      [contactPageNext (mkRawContact "1" "Lead") "A", contactPageLast (mkRawContact "2" "y")]
      = Except.ok ([leadNormContact "1", leadNormContact "2"], 2) ∧
    FieldRef.prop "lifecyclestage" ∈ hsFieldRefs (mkRawContact "1" "Lead") ∧
    FieldRef.prop "lifecyclestage" ∉ contactPromotedRefs ∧
    FieldRef.prop "lifecyclestage" ∉ hsFieldRefs (asObj (leadNormContact "1").json_payload) :=
  ⟨rfl, by decide, by decide, by decide⟩

/-- Claim C9 as amended (corrected): a CRM contact endpoint serving two
pages of one contact each, the first carrying cursor after A and the second
carrying no cursor, produces a 2-row Entity batch after exactly two
requests, each row with source hubspot and type contact, ids matching the
input records, and a json_payload that parses back to exactly the
non-promoted, non-dropped fields of its input record — the dropped set
being top-level createdAt and updatedAt and the lifecyclestage property,
per the C2 correction. -/
theorem c9_end_to_end_crm_two_pages (c1 c2 : Obj) (v1 v2 : Value)
    (e1 e2 : HubSpot.Contact)
    (h1 : HubSpot.normalizeContact c1 = Except.ok e1)
    (h2 : HubSpot.normalizeContact c2 = Except.ok e2)
    (hid1 : pyGet c1 "id" = some v1) (hid2 : pyGet c2 "id" = some v2) :
    HubSpot.fetch_contacts [contactPageNext c1 "A", contactPageLast c2]
      = Except.ok ([e1, e2], 2) ∧
    e1.source = "hubspot" ∧ e2.source = "hubspot" ∧
    e1.type = "contact" ∧ e2.type = "contact" ∧
    e1.id = v1 ∧ e2.id = v2 ∧
    (∀ f, f ∈ hsFieldRefs (asObj e1.json_payload) ↔
      (f ∈ hsFieldRefs c1 ∧ f ∉ contactPromotedRefs ∧ f ∉ contactDroppedRefs)) ∧
    (∀ f, f ∈ hsFieldRefs (asObj e2.json_payload) ↔
      (f ∈ hsFieldRefs c2 ∧ f ∉ contactPromotedRefs ∧ f ∉ contactDroppedRefs)) := by
  have hp1 : HubSpot.pageContacts (contactPageNext c1 "A") = Except.ok [e1] := by
    show mapExceptList HubSpot.normalizeContact [c1] = Except.ok [e1]
    rw [mapExceptList_cons, h1]
    rfl
  have hp2 : HubSpot.pageContacts (contactPageLast c2) = Except.ok [e2] := by
    show mapExceptList HubSpot.normalizeContact [c2] = Except.ok [e2]
    rw [mapExceptList_cons, h2]
    rfl
  have hchain : HubSpot.contactsChain [contactPageNext c1 "A", contactPageLast c2] = true :=
    rfl
  have hfetch := fetch_contacts_on_chain _ hchain
  rw [mapExceptList_cons, hp1, mapExceptList_cons, hp2] at hfetch
  have hpay1 : asObj e1.json_payload = HubSpot.contactPayload c1 := by
    rw [normalizeContact_payload c1 e1 h1, asObj_obj]
  have hpay2 : asObj e2.json_payload = HubSpot.contactPayload c2 := by
    rw [normalizeContact_payload c2 e2 h2, asObj_obj]
  refine ⟨hfetch, (normalizeContact_src_type c1 e1 h1).1,
    (normalizeContact_src_type c2 e2 h2).1,
    (normalizeContact_src_type c1 e1 h1).2, (normalizeContact_src_type c2 e2 h2).2,
    normalizeContact_id c1 e1 v1 h1 hid1, normalizeContact_id c2 e2 v2 h2 hid2,
    fun f => ?_, fun f => ?_⟩
  · rw [hpay1]
    exact mem_hsFieldRefs_contactPayload c1 f
  · rw [hpay2]
    exact mem_hsFieldRefs_contactPayload c2 f

/-- Witness for C9 at two concrete one-contact pages: the run result, the
fixed tags, the matching ids, and one recoverable payload field. -/
theorem c9_end_to_end_crm_two_pages_witness :
    HubSpot.fetch_contacts
      [contactPageNext overflowContact "A", contactPageLast (mkRawContact "2" "y")]
      = Except.ok
        ([{ id := Value.str "7", type := "contact", name := "", email := Value.str "a@b.c",
            created_at := Value.str "", updated_at := Value.str "", source := "hubspot",
            json_payload := Value.obj
              [("archived", Value.bool false),
               ("properties", Value.obj [("custom_score", Value.num 9)])] },
          leadNormContact "2"], 2) ∧
    (leadNormContact "2").source = "hubspot" ∧ (leadNormContact "2").id = Value.str "2" ∧
    FieldRef.prop "custom_score" ∈ hsFieldRefs
      (asObj ({ id := Value.str "7", type := "contact", name := "",
                email := Value.str "a@b.c", created_at := Value.str "",
                updated_at := Value.str "", source := "hubspot",
                json_payload := Value.obj
                  [("archived", Value.bool false),
                   ("properties", Value.obj [("custom_score", Value.num 9)])] }
               : HubSpot.Contact).json_payload) := by
  have h := c9_end_to_end_crm_two_pages overflowContact (mkRawContact "2" "y")
    (Value.str "7") (Value.str "2")
    { id := Value.str "7", type := "contact", name := "", email := Value.str "a@b.c",
      created_at := Value.str "", updated_at := Value.str "", source := "hubspot",
      json_payload := Value.obj
        [("archived", Value.bool false),
         ("properties", Value.obj [("custom_score", Value.num 9)])] }
    (leadNormContact "2") rfl rfl rfl rfl
  exact ⟨h.1, h.2.2.1, h.2.2.2.2.2.2.1,
    (h.2.2.2.2.2.2.2.1 (FieldRef.prop "custom_score")).2 ⟨by decide, by decide, by decide⟩⟩

/-- Claim C4 (confirmed): for every finite sequence of response pages whose
intermediate pages carry a next-page marker (a paging.next.after cursor for
the CRM client, a next_page URL containing "page=" for the helpdesk client)
and whose last page lacks one, the paged fetch terminates after consuming
exactly the pages of the sequence and returns the concatenation, in page
order and in-page order, of the records of all pages. -/
theorem c4_pagination_termination_and_order :
    (∀ pages : List Obj, HubSpot.contactsChain pages = true →
      HubSpot.fetch_contacts pages =
        (mapExceptList HubSpot.pageContacts pages).map
          (fun css => (css.flatten, pages.length))) ∧
    (∀ pages : List Obj, Zendesk.ticketsChain pages = true →
      Zendesk.fetch_tickets pages =
        (mapExceptList Zendesk.pageTickets pages).map
          (fun tss => (tss.flatten, pages.length))) :=
  ⟨fetch_contacts_on_chain, fetch_tickets_on_chain⟩

/-- Witness for C4: a two-page contact sequence (cursor A, then no paging)
and a two-page ticket sequence (next_page URL, then none) each consume
exactly two pages and return both records in order. -/
theorem c4_pagination_termination_and_order_witness :
    HubSpot.contactsChain
      [contactPageNext (mkRawContact "1" "x") "A", contactPageLast (mkRawContact "2" "y")]
      = true ∧
    HubSpot.fetch_contacts
      [contactPageNext (mkRawContact "1" "x") "A", contactPageLast (mkRawContact "2" "y")]
      = Except.ok ([leadNormContact "1", leadNormContact "2"], 2) ∧
    Zendesk.ticketsChain
      [ticketPageNext (mkRawTicket 1 "a") "https://z/search.json?page=2",
       ticketPageLast (mkRawTicket 2 "b")] = true ∧
    (Zendesk.fetch_tickets
      [ticketPageNext (mkRawTicket 1 "a") "https://z/search.json?page=2",
       ticketPageLast (mkRawTicket 2 "b")]).map (fun r => r.2) = Except.ok 2 := by
  refine ⟨rfl, ?_, rfl, ?_⟩
  · have := c4_pagination_termination_and_order.1
      [contactPageNext (mkRawContact "1" "x") "A", contactPageLast (mkRawContact "2" "y")] rfl
    rw [this]
    rfl
  · have := c4_pagination_termination_and_order.2
      [ticketPageNext (mkRawTicket 1 "a") "https://z/search.json?page=2",
       ticketPageLast (mkRawTicket 2 "b")] rfl
    rw [this]
    rfl
